/-
Verification of the upload-and-commit workflow of the fma admission portal.

The development shallowly embeds the relevant source functions:
  * `MediaService.getSignedURL` and `MediaService.getPresignedFileUrl`
    (src/api/src/modules/media/services/media.service.ts) — the upload URL broker;
  * `handleFileChange`, `checkApplicationStatus` and `handleUpload`
    (src/website/front/src/app/[lang]/profile/rapport/page.tsx) — the report-page
    client validation and orchestrator;
  * `onSubmit`
    (src/website/front/src/app/[lang]/application/form/application-form.tsx) — the
    application-form orchestrator.

Outcomes of external calls (settings check, presigned-URL request, S3 transfer,
database commit, status update) are supplied by explicit environment records; a
`none` entry models a thrown/rejected promise, `some` a resolved response.  The
orchestrators are pure functions from the environment, the user data and the
current durable record to an outcome, the new durable record and a trace of the
side-effecting calls they performed.
-/
import Mathlib

namespace Fma

/-! ## Upload URL broker (src/api/src/modules/media/services/media.service.ts) -/

/-- `MediaService.acceptedTypes`, verbatim from the source (including the
duplicated `image/png` entry). -/
def acceptedTypes : List String :=
  ["image/png", "image/jpeg", "image/jpg", "image/png", "image/webp", "application/pdf"]

/-- `MediaService.maxFileSize = 1024 * 1024 * 15` (15MB). -/
def maxFileSize : Nat := 1024 * 1024 * 15

/-- The storage provider: `getSignedUrl(s3, putObjectCommand, ...)` is an external
call; `sign userId filename type size checksum` stands for the URL it returns. -/
structure S3Env where
  sign : Nat → String → String → Nat → String → String

/-- `MediaService.getSignedURL`: rejects (returns `null`, here `none`) when the
content type is not accepted or the size exceeds `maxFileSize`; otherwise returns
the presigned URL produced by the provider. -/
def getSignedURL (s3 : S3Env) (userId : Nat) (filename : String) (type : String)
    (size : Nat) (checksum : String) : Option String :=
  if type ∉ acceptedTypes then
    none
  else if size > maxFileSize then
    none
  else
    some (s3.sign userId filename type size checksum)

/-! ## Client-side file selection (profile/rapport/page.tsx, handleFileChange) -/

/-- The metadata of a browser `File` object that the workflow reads. -/
structure FileMeta where
  name : String
  type : String
  size : Nat
deriving DecidableEq, Repr

/-- `acceptedFileTypes` inside `handleFileChange` on the report page. -/
def clientAcceptedFileTypes : List String :=
  ["application/pdf", "image/png", "image/jpeg", "image/jpg"]

/-- `maxSizeInBytes = 15 * 1024 * 1024` inside `handleFileChange`. -/
def clientMaxSizeInBytes : Nat := 15 * 1024 * 1024

/-- `handleFileChange`: on an invalid type or an oversized file it resets the
input and returns without calling `setSelectedFile`, so the previous selection
`selected` is kept; otherwise the new file becomes the selection. -/
def handleFileChange (file : FileMeta) (selected : Option FileMeta) : Option FileMeta :=
  if file.type ∉ clientAcceptedFileTypes then
    selected
  else if file.size > clientMaxSizeInBytes then
    selected
  else
    some file

/-- JS `name.split(".").pop()`: the last dot-separated segment of `name` (the
whole name when it contains no dot). -/
def splitPop (name : String) : String :=
  ((name.toList.splitOn '.').getLastD []).asString

/-! ## Report page data model -/

/-- `reportStatus` values used by the report page. -/
inductive ReportStatus
  | PENDING
  | VALID
  | NOT_VALID
deriving DecidableEq, Repr

/-- Response of `getApplicationsOpenStatus()`. -/
structure OpenResp where
  statusCode : Nat
  isOpen : Bool
deriving DecidableEq, Repr

/-- `checkApplicationStatus` (report page `useEffect`): `isApplicationsOpen` is
set from `response.isOpen` only when `response?.statusCode === 200`; any other
response, and a thrown call (`none`), default it to `false` (closed). -/
def checkApplicationStatus (resp : Option OpenResp) : Bool :=
  match resp with
  | some r => if r.statusCode = 200 then r.isOpen else false
  | none => false

/-- The fields of the recoil `userData` that `handleUpload` reads. -/
structure UserData where
  firstName : String
  lastName : String
  applicationId : Nat
  reportStatus : ReportStatus
deriving DecidableEq, Repr

/-- The durable application record the report-page workflow mutates through
`putApplication` and `updateApplicationStatus`. -/
structure AppRecord where
  reportUrl : Option String
  reportStatus : ReportStatus
deriving DecidableEq, Repr

/-- Outcomes of the external calls made by `handleUpload`.  `none` models a
thrown/rejected call, `some` a resolved response. -/
structure ReportEnv where
  /-- `getUploadFolderName(userData.firstName, userData.lastName)`. -/
  folderName : String
  /-- `generateFileName()`. -/
  genName : String
  /-- `computeSHA256(file)`. -/
  checksum : String
  /-- The `getSignedURL` API response: `none` when the response is missing or
  has no `url` field, `some url` otherwise. -/
  presignResp : Option String
  /-- `uploadFile(url, file)`: `none` when it rejects (transport error),
  `some ok` when it resolves with `success = ok`. -/
  uploadResp : Option Bool
  /-- Message of the error thrown by a rejected `uploadFile`. -/
  uploadErrMsg : String
  /-- `putApplication` response status code; `none` when the call throws. -/
  putResp : Option Nat
  /-- Message of the error thrown by a rejected `putApplication`. -/
  putErrMsg : String
  /-- `updateApplicationStatus` response status code; `none` when it throws
  (caught by the inner try/catch). -/
  resetResp : Option Nat
  /-- `new Date().toISOString()` at the time the error details are built. -/
  now : String

/-- The errors `handleUpload` can throw; each constructor corresponds to one
throw site (or to the propagated rejection of an external call). -/
inductive UploadError
  | signedURLFailed
  | uploadValidation
  | transport (msg : String)
  | commitThrown (msg : String)
  | orphaned (status : Nat) (firstName lastName timestamp : String)
deriving DecidableEq, Repr

/-- Prefix of the urgent message thrown when the database update fails after a
successful S3 upload. -/
def orphanedMsgPrefix (status : Nat) : String :=
  "URGENT: File uploaded successfully to S3 but database update failed (Status: "
    ++ toString status
    ++ "). Your file is safe in S3. Please contact support immediately with your name: "

/-- Middle part of the urgent message, between the owner name and the timestamp. -/
def orphanedMsgMid : String := " and this timestamp: "

/-- `error.message` as displayed by the destructive toast in the catch block. -/
def UploadError.message : UploadError → String
  | .signedURLFailed =>
      "Impossible d\x27obtenir une URL de téléchargement. Veuillez réessayer ou contacter le support."
  | .uploadValidation => "S3 upload validation failed - unexpected response format"
  | .transport msg => msg
  | .commitThrown msg => msg
  | .orphaned status firstName lastName timestamp =>
      orphanedMsgPrefix status ++ firstName ++ " " ++ lastName ++ orphanedMsgMid ++ timestamp

/-- User-facing outcome of one `handleUpload` run.  `done updatedFromValid`
is the success toast, whose description depends on whether the previous report
status was `VALID`. -/
inductive Outcome
  | blockedClosed
  | blockedNoFile
  | done (updatedFromValid : Bool)
  | failed (e : UploadError)
deriving DecidableEq, Repr

/-- Result of one `handleUpload` run: the user-facing outcome, the durable
record afterwards, and a trace of the calls performed. -/
structure RunResult where
  outcome : Outcome
  record : AppRecord
  /-- The object key passed to `getSignedURL`, when that call was made. -/
  presignedKey : Option String
  /-- Whether `putApplication` was called. -/
  commitCalled : Bool
  /-- Whether `updateApplicationStatus` was called. -/
  resetCalled : Bool
  /-- Whether the non-fatal status-reset warning was emitted. -/
  warning : Bool
deriving DecidableEq, Repr

/-- `handleUpload` (report page), as a function of the environment, the user
data, the `isApplicationsOpen` flag, the selected file and the durable record.
The durable record is updated only by a `putApplication` (resp.
`updateApplicationStatus`) call that returns status 200. -/
def handleUpload (env : ReportEnv) (user : UserData) (isApplicationsOpen : Bool)
    (selectedFile : Option FileMeta) (record : AppRecord) : RunResult :=
  if isApplicationsOpen = false then
    ⟨.blockedClosed, record, none, false, false, false⟩
  else
    match selectedFile with
    | none => ⟨.blockedNoFile, record, none, false, false, false⟩
    | some sf =>
      let fileName := "report_" ++ env.genName ++ "." ++ splitPop sf.name
      let file : FileMeta := { name := fileName, type := sf.type, size := sf.size }
      let key := "upload_mtym/" ++ env.folderName ++ "/" ++ file.name
      match env.presignResp with
      | none => ⟨.failed .signedURLFailed, record, some key, false, false, false⟩
      | some _url =>
        match env.uploadResp with
        | none => ⟨.failed (.transport env.uploadErrMsg), record, some key, false, false, false⟩
        | some ok =>
          if ok = false then
            ⟨.failed .uploadValidation, record, some key, false, false, false⟩
          else
            let reportUrl := "upload_mtym/" ++ env.folderName ++ "/" ++ file.name
            match env.putResp with
            | none => ⟨.failed (.commitThrown env.putErrMsg), record, some key, true, false, false⟩
            | some status =>
              if status = 200 then
                let record1 : AppRecord := { record with reportUrl := some reportUrl }
                let fromValid := user.reportStatus == ReportStatus.VALID
                match env.resetResp with
                | some rs =>
                  if rs = 200 then
                    ⟨.done fromValid, { record1 with reportStatus := .PENDING },
                      some key, true, true, false⟩
                  else
                    ⟨.done fromValid, record1, some key, true, true, true⟩
                | none =>
                  ⟨.done fromValid, record1, some key, true, true, true⟩
              else
                ⟨.failed (.orphaned status user.firstName user.lastName env.now),
                  record, some key, true, false, false⟩

/-! ## Application form (application/form/application-form.tsx, onSubmit) -/

/-- Overall application status values used by the form. -/
inductive AppStatus
  | DRAFT
  | PENDING
  | UPDATED
  | NOTIFIED
deriving DecidableEq, Repr

/-- `postApplication` response. -/
structure PostResp where
  statusCode : Nat
  id : Nat
  message : Option String
deriving DecidableEq, Repr

/-- Outcomes of the external calls made by `onSubmit`; `none` models a thrown
call. -/
structure FormEnv where
  /-- `getUploadFolderName(userData.firstName, userData.lastName)`. -/
  folderName : String
  /-- `generateFileName()` for the school certificate. -/
  certGen : String
  /-- `generateFileName()` for the grades file. -/
  gradesGen : String
  /-- `postApplication` response; `none` when the call throws. -/
  postResp : Option PostResp
  /-- Message of the error thrown by a rejected `postApplication`. -/
  postErrMsg : String
  /-- The `getSignedURL` API response per requested object key. -/
  presignResp : String → Option String
  /-- `uploadFile` outcome per requested object key. -/
  uploadResp : String → Option Bool
  /-- Message of the error thrown by a rejected `uploadFile`. -/
  uploadErrMsg : String
  /-- `putApplication` response status code; `none` when the call throws. -/
  putResp : Option Nat
  /-- Message of the error thrown by a rejected `putApplication`. -/
  putErrMsg : String
  /-- `updateApplicationStatus` response status code; `none` when it throws. -/
  statusResp : Option Nat
  /-- Message of the error thrown by a rejected `updateApplicationStatus`. -/
  statusErrMsg : String

/-- The fields of `userData` that `onSubmit` reads. -/
structure FormUser where
  firstName : String
  lastName : String
  status : AppStatus
deriving DecidableEq, Repr

/-- The durable application record the form workflow mutates. -/
structure FormRecord where
  schoolCertificateUrl : Option String
  gradesUrl : Option String
  status : AppStatus
deriving DecidableEq, Repr

/-- User-facing outcome of one `onSubmit` run: the success toast, or the error
dialog showing `err.message`. -/
inductive FormOutcome
  | done
  | failedDialog (msg : String)
deriving DecidableEq, Repr

/-- Result of one `onSubmit` run. -/
structure FormRunResult where
  outcome : FormOutcome
  record : FormRecord
  /-- The object keys passed to `getSignedURL`, in call order. -/
  presignedKeys : List String
  /-- Whether `putApplication` was called. -/
  commitCalled : Bool
  /-- Whether `updateApplicationStatus` was called. -/
  statusCalled : Bool
deriving DecidableEq, Repr

/-- `onSubmit` (application form): posts the application, uploads the school
certificate and the grades file sequentially, then records the two upload URLs
with `putApplication` and updates the overall status — the results of those last
two calls are not inspected (only a rejection aborts, through the catch block).
The durable record is updated only by calls returning status 200. -/
def onSubmit (env : FormEnv) (user : FormUser) (schoolCertificate grades : FileMeta)
    (record : FormRecord) : FormRunResult :=
  let certName :=
    "school_certificate_" ++ env.certGen ++ "." ++ splitPop schoolCertificate.name
  let gradesName :=
    "grades_" ++ env.gradesGen ++ "." ++ splitPop grades.name
  match env.postResp with
  | none => ⟨.failedDialog env.postErrMsg, record, [], false, false⟩
  | some post =>
    if post.statusCode ≠ 200 then
      ⟨.failedDialog (post.message.getD "Post of application failed"), record, [], false, false⟩
    else
      let certKey := "upload_mtym/" ++ env.folderName ++ "/" ++ certName
      match env.presignResp certKey with
      | none =>
        ⟨.failedDialog ("Failed to get signed URL for " ++ certName), record,
          [certKey], false, false⟩
      | some _ =>
        match env.uploadResp certKey with
        | none => ⟨.failedDialog env.uploadErrMsg, record, [certKey], false, false⟩
        | some ok1 =>
          if ok1 = false then
            ⟨.failedDialog ("S3 upload validation failed for " ++ certName
                ++ " - unexpected response format"), record, [certKey], false, false⟩
          else
            let gradesKey := "upload_mtym/" ++ env.folderName ++ "/" ++ gradesName
            match env.presignResp gradesKey with
            | none =>
              ⟨.failedDialog ("Failed to get signed URL for " ++ gradesName), record,
                [certKey, gradesKey], false, false⟩
            | some _ =>
              match env.uploadResp gradesKey with
              | none =>
                ⟨.failedDialog env.uploadErrMsg, record, [certKey, gradesKey], false, false⟩
              | some ok2 =>
                if ok2 = false then
                  ⟨.failedDialog ("S3 upload validation failed for " ++ gradesName
                      ++ " - unexpected response format"), record,
                    [certKey, gradesKey], false, false⟩
                else
                  match env.putResp with
                  | none =>
                    ⟨.failedDialog env.putErrMsg, record, [certKey, gradesKey], true, false⟩
                  | some putCode =>
                    let record1 : FormRecord :=
                      if putCode = 200 then
                        { record with
                          schoolCertificateUrl :=
                            some ("upload_mtym/" ++ env.folderName ++ "/" ++ certName),
                          gradesUrl :=
                            some ("upload_mtym/" ++ env.folderName ++ "/" ++ gradesName) }
                      else record
                    match env.statusResp with
                    | none =>
                      ⟨.failedDialog env.statusErrMsg, record1, [certKey, gradesKey], true, true⟩
                    | some statusCode =>
                      let newStatus :=
                        if user.status == AppStatus.NOTIFIED then AppStatus.UPDATED
                        else AppStatus.PENDING
                      let record2 : FormRecord :=
                        if statusCode = 200 then { record1 with status := newStatus }
                        else record1
                      ⟨.done, record2, [certKey, gradesKey], true, true⟩

/-! ## Object keys as computed by the orchestrators -/

/-- The object key the report-page workflow requests and commits:
`upload_mtym/folder/report_gen.ext`. -/
def reportObjectKey (env : ReportEnv) (sf : FileMeta) : String :=
  "upload_mtym/" ++ env.folderName ++ "/"
    ++ ("report_" ++ env.genName ++ "." ++ splitPop sf.name)

/-- The object key the form workflow requests and commits for the school
certificate. -/
def certObjectKey (env : FormEnv) (cert : FileMeta) : String :=
  "upload_mtym/" ++ env.folderName ++ "/"
    ++ ("school_certificate_" ++ env.certGen ++ "." ++ splitPop cert.name)

/-- The object key the form workflow requests and commits for the grades file. -/
def gradesObjectKey (env : FormEnv) (grades : FileMeta) : String :=
  "upload_mtym/" ++ env.folderName ++ "/"
    ++ ("grades_" ++ env.gradesGen ++ "." ++ splitPop grades.name)

/-! ## Sample data used to instantiate the theorems on concrete inputs -/

/-- A concrete storage provider. -/
def sampleS3 : S3Env := ⟨fun _ _ _ _ _ => "signed-url"⟩

/-- A concrete report-page user. -/
def sampleUser : UserData := ⟨"John", "Doe", 7, .VALID⟩

/-- A concrete selected file. -/
def sampleFile : FileMeta := ⟨"rapport.pdf", "application/pdf", 1000⟩

/-- A concrete durable record holding a validated report. -/
def sampleRecord : AppRecord := ⟨some "old_key", .VALID⟩

/-- A report-page environment in which every external call succeeds. -/
def sampleReportEnv : ReportEnv where
  folderName := "john_doe"
  genName := "abc123"
  checksum := "sum"
  presignResp := some "https://bucket/presigned"
  uploadResp := some true
  uploadErrMsg := "Network error"
  putResp := some 200
  putErrMsg := "Network error"
  resetResp := some 200
  now := "2025-06-01T12:00:00.000Z"

/-- A concrete form user. -/
def sampleFormUser : FormUser := ⟨"John", "Doe", .DRAFT⟩

/-- Concrete form files. -/
def sampleCert : FileMeta := ⟨"certificat.pdf", "application/pdf", 2000⟩

/-- Concrete grades file. -/
def sampleGrades : FileMeta := ⟨"notes.png", "image/png", 3000⟩

/-- A concrete durable form record. -/
def sampleFormRecord : FormRecord := ⟨none, none, .DRAFT⟩

/-- A form environment in which every external call succeeds. -/
def sampleFormEnv : FormEnv where
  folderName := "john_doe"
  certGen := "g1"
  gradesGen := "g2"
  postResp := some ⟨200, 42, none⟩
  postErrMsg := "Network error"
  presignResp := fun _ => some "https://bucket/presigned"
  uploadResp := fun _ => some true
  uploadErrMsg := "Network error"
  putResp := some 200
  putErrMsg := "Network error"
  statusResp := some 200
  statusErrMsg := "Network error"

/-! ## Broker theorems -/

/-- C5: for every contentType not in the accepted set, `getSignedURL` returns
a rejection (`none`, the embedding of `null`), so no upload authorization is
minted, whatever the other arguments are. -/
theorem getSignedURL_rejects_unsupported_type (s3 : S3Env) (userId : Nat)
    (filename type : String) (size : Nat) (checksum : String)
    (h : type ∉ acceptedTypes) :
    getSignedURL s3 userId filename type size checksum = none := by
  simp [getSignedURL, h]

/-- C5 witness: `application/zip` is rejected. -/
theorem getSignedURL_rejects_unsupported_type_witness :
    getSignedURL sampleS3 1 "k" "application/zip" 100 "sum" = none :=
  getSignedURL_rejects_unsupported_type sampleS3 1 "k" "application/zip" 100 "sum"
    (by decide)

/-- C6: for every size strictly greater than 15728640 bytes, `getSignedURL`
returns a rejection, regardless of the contentType supplied (an unaccepted type
is rejected by the first check, an accepted one by the size check). -/
theorem getSignedURL_rejects_oversized (s3 : S3Env) (userId : Nat)
    (filename type : String) (size : Nat) (checksum : String)
    (h : size > 15728640) :
    getSignedURL s3 userId filename type size checksum = none := by
  have hm : size > maxFileSize := by simpa [maxFileSize] using h
  by_cases ht : type ∈ acceptedTypes
  · simp [getSignedURL, ht, hm]
  · simp [getSignedURL, ht]

/-- C6 witness: a 15728641-byte PDF is rejected. -/
theorem getSignedURL_rejects_oversized_witness :
    getSignedURL sampleS3 1 "k" "application/pdf" 15728641 "sum" = none :=
  getSignedURL_rejects_oversized sampleS3 1 "k" "application/pdf" 15728641 "sum"
    (by decide)

/-- C10: for every accepted contentType and size exactly 15728640 (the
ceiling), `getSignedURL` accepts the request and mints an authorization: the
size check is a strict greater-than comparison, so the boundary is allowed. -/
theorem getSignedURL_accepts_boundary_size (s3 : S3Env) (userId : Nat)
    (filename type : String) (checksum : String) (h : type ∈ acceptedTypes) :
    getSignedURL s3 userId filename type 15728640 checksum
      = some (s3.sign userId filename type 15728640 checksum) := by
  simp [getSignedURL, h, maxFileSize]

/-- C10 witness: a PDF of exactly 15728640 bytes is authorized. -/
theorem getSignedURL_accepts_boundary_size_witness :
    getSignedURL sampleS3 1 "k" "application/pdf" 15728640 "sum" = some "signed-url" :=
  getSignedURL_accepts_boundary_size sampleS3 1 "k" "application/pdf" "sum" (by decide)

/-- C9: the client-side accepted set on the report page is
`application/pdf, image/png, image/jpeg, image/jpg`, a strict subset of the
broker's accepted set: every client type is broker-accepted, but `image/webp`
is broker-accepted while the client rejects such a file (the selection stays
empty), even though `getSignedURL` would authorize that contentType. -/
theorem client_accepts_strict_subset :
    (∀ t ∈ clientAcceptedFileTypes, t ∈ acceptedTypes)
    ∧ "image/webp" ∈ acceptedTypes
    ∧ "image/webp" ∉ clientAcceptedFileTypes
    ∧ handleFileChange ⟨"photo.webp", "image/webp", 100⟩ none = none
    ∧ getSignedURL sampleS3 1 "photo.webp" "image/webp" 100 "sum" = some "signed-url" :=
  ⟨by decide, by decide, by decide, by decide, by decide⟩

/-! ## Workflow theorems -/

/-- C4: if the applications-open check returns a non-200 status or throws
(`resp = none`), `checkApplicationStatus` yields `false` (closed, the fail-safe
default), and the report-page workflow driven by that flag terminates in
`blockedClosed` before any other step executes: no presign request, no commit,
no status call, and the durable record untouched. -/
theorem applications_check_failSafe_blocks (resp : Option OpenResp)
    (h : ∀ r, resp = some r → r.statusCode ≠ 200)
    (env : ReportEnv) (user : UserData) (selectedFile : Option FileMeta)
    (record : AppRecord) :
    checkApplicationStatus resp = false
    ∧ handleUpload env user (checkApplicationStatus resp) selectedFile record
        = ⟨.blockedClosed, record, none, false, false, false⟩ := by
  have hc : checkApplicationStatus resp = false := by
    cases resp with
    | none => rfl
    | some r => simp [checkApplicationStatus, h r rfl]
  exact ⟨hc, by rw [hc]; rfl⟩


/-- C4 witness: a 500 response from the settings check blocks the upload. -/
theorem applications_check_failSafe_blocks_witness :
    checkApplicationStatus (some ⟨500, true⟩) = false
    ∧ handleUpload sampleReportEnv sampleUser (checkApplicationStatus (some ⟨500, true⟩))
        (some sampleFile) sampleRecord
        = ⟨.blockedClosed, sampleRecord, none, false, false, false⟩ :=
  applications_check_failSafe_blocks (some ⟨500, true⟩)
    (fun r hr => by cases hr; decide) sampleReportEnv sampleUser (some sampleFile)
    sampleRecord

/-- C1 counterexample: in the application-form workflow, a run in which both
uploads succeed but `putApplication` (the record commit) returns status 500
still terminates in the success outcome `done` — not in a Failed(OrphanedUpload)
error carrying the owner identity and a timestamp. -/
theorem onSubmit_commit_non200_still_done :
    ({ sampleFormEnv with putResp := some 500 } : FormEnv).putResp = some 500
    ∧ ({ sampleFormEnv with putResp := some 500 } : FormEnv).uploadResp
        (certObjectKey { sampleFormEnv with putResp := some 500 } sampleCert) = some true
    ∧ (onSubmit { sampleFormEnv with putResp := some 500 } sampleFormUser sampleCert
        sampleGrades sampleFormRecord).outcome = FormOutcome.done := by
  refine ⟨rfl, rfl, by decide⟩

/-- C1 (amended to the report-page workflow): if the upload succeeds but
`putApplication` returns a non-200 status, `handleUpload` terminates in the
orphaned-upload failure, and the user-visible message decomposes around the
owner's first and last name and the ISO timestamp. -/
theorem handleUpload_commit_non200_orphaned (env : ReportEnv) (user : UserData)
    (f : FileMeta) (record : AppRecord) (url : String) (n : Nat)
    (hs : env.presignResp = some url) (hu : env.uploadResp = some true)
    (hc : env.putResp = some n) (hn : n ≠ 200) :
    (handleUpload env user true (some f) record).outcome
        = Outcome.failed (.orphaned n user.firstName user.lastName env.now)
    ∧ (handleUpload env user true (some f) record).commitCalled = true
    ∧ (handleUpload env user true (some f) record).record = record
    ∧ (UploadError.orphaned n user.firstName user.lastName env.now).message
        = orphanedMsgPrefix n ++ user.firstName ++ " " ++ user.lastName
            ++ orphanedMsgMid ++ env.now := by
  refine ⟨?_, ?_, ?_, rfl⟩ <;> simp [handleUpload, hs, hu, hc, hn]

/-- C1 witness for the amended claim: a 500 commit response after a successful
upload yields the orphaned-upload failure with name and timestamp in the
message. -/
theorem handleUpload_commit_non200_orphaned_witness :
    (handleUpload { sampleReportEnv with putResp := some 500 } sampleUser true
        (some sampleFile) sampleRecord).outcome
      = Outcome.failed (.orphaned 500 "John" "Doe" "2025-06-01T12:00:00.000Z")
    ∧ (handleUpload { sampleReportEnv with putResp := some 500 } sampleUser true
        (some sampleFile) sampleRecord).commitCalled = true
    ∧ (handleUpload { sampleReportEnv with putResp := some 500 } sampleUser true
        (some sampleFile) sampleRecord).record = sampleRecord
    ∧ (UploadError.orphaned 500 "John" "Doe" "2025-06-01T12:00:00.000Z").message
        = orphanedMsgPrefix 500 ++ "John" ++ " " ++ "Doe" ++ orphanedMsgMid
            ++ "2025-06-01T12:00:00.000Z" :=
  handleUpload_commit_non200_orphaned { sampleReportEnv with putResp := some 500 }
    sampleUser sampleFile sampleRecord "https://bucket/presigned" 500 rfl rfl rfl
    (by decide)

/-- C2: for a resubmission whose prior durable reportStatus is VALID, (a) after
a successful record commit the workflow issues the reset of reportStatus to
PENDING, and the stored reportStatus is PENDING whenever that reset call
returns 200; (b) if the upload step failed before the commit, the stored
reportStatus is left unchanged at VALID. -/
theorem handleUpload_valid_resubmission_pending (env : ReportEnv) (user : UserData)
    (f : FileMeta) (record : AppRecord) (hval : record.reportStatus = .VALID) :
    (∀ url, env.presignResp = some url → env.uploadResp = some true →
      env.putResp = some 200 →
        (handleUpload env user true (some f) record).resetCalled = true
        ∧ (env.resetResp = some 200 →
            (handleUpload env user true (some f) record).record.reportStatus
              = ReportStatus.PENDING))
    ∧ (env.uploadResp ≠ some true →
        (handleUpload env user true (some f) record).record.reportStatus
          = ReportStatus.VALID) := by
  constructor
  · intro url hs hu hc
    constructor
    · rcases hr : env.resetResp with _ | rs
      · simp [handleUpload, hs, hu, hc, hr]
      · by_cases h200 : rs = 200 <;> simp [handleUpload, hs, hu, hc, hr, h200]
    · intro hr
      simp [handleUpload, hs, hu, hc, hr]
  · intro hu
    rcases hs : env.presignResp with _ | url
    · simpa [handleUpload, hs] using hval
    · rcases hup : env.uploadResp with _ | ok
      · simpa [handleUpload, hs, hup] using hval
      · have hok : ok = false := by
          cases ok
          · rfl
          · exact absurd hup hu
        subst hok
        simpa [handleUpload, hs, hup] using hval

/-- C2 witness: with every call succeeding the stored status becomes PENDING;
with a failed upload it stays VALID. -/
theorem handleUpload_valid_resubmission_pending_witness :
    (handleUpload sampleReportEnv sampleUser true (some sampleFile)
        sampleRecord).resetCalled = true
    ∧ (handleUpload sampleReportEnv sampleUser true (some sampleFile)
        sampleRecord).record.reportStatus = ReportStatus.PENDING
    ∧ (handleUpload { sampleReportEnv with uploadResp := some false } sampleUser true
        (some sampleFile) sampleRecord).record.reportStatus = ReportStatus.VALID :=
  ⟨((handleUpload_valid_resubmission_pending sampleReportEnv sampleUser sampleFile
      sampleRecord rfl).1 "https://bucket/presigned" rfl rfl rfl).1,
   ((handleUpload_valid_resubmission_pending sampleReportEnv sampleUser sampleFile
      sampleRecord rfl).1 "https://bucket/presigned" rfl rfl rfl).2 rfl,
   (handleUpload_valid_resubmission_pending
      { sampleReportEnv with uploadResp := some false } sampleUser sampleFile
      sampleRecord rfl).2 (by decide)⟩

/-- Message of the error thrown by `onSubmit` when the school-certificate S3
upload resolves without `success`. -/
def certUploadFailMsg (env : FormEnv) (cert : FileMeta) : String :=
  "S3 upload validation failed for "
    ++ ("school_certificate_" ++ env.certGen ++ "." ++ splitPop cert.name)
    ++ " - unexpected response format"

/-- Message of the error thrown by `onSubmit` when the grades S3 upload
resolves without `success`. -/
def gradesUploadFailMsg (env : FormEnv) (grades : FileMeta) : String :=
  "S3 upload validation failed for "
    ++ ("grades_" ++ env.gradesGen ++ "." ++ splitPop grades.name)
    ++ " - unexpected response format"

/-- C3: whenever the upload step reports failure (a rejected transfer or a
response without `success`), the workflow terminates in an upload failure, the
record commit is never called, the status is never touched and the durable
record is unchanged.  Part one covers the report page; parts two and three
cover the application form when the first, respectively the second, upload
fails. -/
theorem upload_failure_no_commit_no_mutation (env : ReportEnv) (user : UserData)
    (f : FileMeta) (record : AppRecord) (fenv : FormEnv) (fuser : FormUser)
    (cert grades : FileMeta) (frecord : FormRecord) :
    (∀ url, env.presignResp = some url → env.uploadResp ≠ some true →
      ((handleUpload env user true (some f) record).outcome
          = Outcome.failed (.transport env.uploadErrMsg)
        ∨ (handleUpload env user true (some f) record).outcome
          = Outcome.failed .uploadValidation)
      ∧ (handleUpload env user true (some f) record).commitCalled = false
      ∧ (handleUpload env user true (some f) record).resetCalled = false
      ∧ (handleUpload env user true (some f) record).record = record)
    ∧ (∀ post u, fenv.postResp = some post → post.statusCode = 200 →
        fenv.presignResp (certObjectKey fenv cert) = some u →
        fenv.uploadResp (certObjectKey fenv cert) ≠ some true →
        ((onSubmit fenv fuser cert grades frecord).outcome
            = FormOutcome.failedDialog fenv.uploadErrMsg
          ∨ (onSubmit fenv fuser cert grades frecord).outcome
            = FormOutcome.failedDialog (certUploadFailMsg fenv cert))
        ∧ (onSubmit fenv fuser cert grades frecord).commitCalled = false
        ∧ (onSubmit fenv fuser cert grades frecord).statusCalled = false
        ∧ (onSubmit fenv fuser cert grades frecord).record = frecord)
    ∧ (∀ post u v, fenv.postResp = some post → post.statusCode = 200 →
        fenv.presignResp (certObjectKey fenv cert) = some u →
        fenv.uploadResp (certObjectKey fenv cert) = some true →
        fenv.presignResp (gradesObjectKey fenv grades) = some v →
        fenv.uploadResp (gradesObjectKey fenv grades) ≠ some true →
        ((onSubmit fenv fuser cert grades frecord).outcome
            = FormOutcome.failedDialog fenv.uploadErrMsg
          ∨ (onSubmit fenv fuser cert grades frecord).outcome
            = FormOutcome.failedDialog (gradesUploadFailMsg fenv grades))
        ∧ (onSubmit fenv fuser cert grades frecord).commitCalled = false
        ∧ (onSubmit fenv fuser cert grades frecord).statusCalled = false
        ∧ (onSubmit fenv fuser cert grades frecord).record = frecord) := by
  refine ⟨?_, ?_, ?_⟩
  · intro url hs hu
    rcases hup : env.uploadResp with _ | ok
    · refine ⟨Or.inl ?_, ?_, ?_, ?_⟩ <;> simp [handleUpload, hs, hup]
    · have hok : ok = false := by
        cases ok
        · rfl
        · exact absurd hup hu
      subst hok
      refine ⟨Or.inr ?_, ?_, ?_, ?_⟩ <;> simp [handleUpload, hs, hup]
  · intro post u hpost hpc hcs hcu
    rcases hcup : fenv.uploadResp (certObjectKey fenv cert) with _ | ok
    · simp only [certObjectKey] at hcs hcup
      refine ⟨Or.inl ?_, ?_, ?_, ?_⟩ <;> simp [onSubmit, hpost, hpc, hcs, hcup]
    · have hok : ok = false := by
        cases ok
        · rfl
        · exact absurd hcup hcu
      subst hok
      simp only [certObjectKey] at hcs hcup
      refine ⟨Or.inr ?_, ?_, ?_, ?_⟩ <;>
        simp [onSubmit, certUploadFailMsg, hpost, hpc, hcs, hcup]
  · intro post u v hpost hpc hcs hcu hgs hgu
    rcases hgup : fenv.uploadResp (gradesObjectKey fenv grades) with _ | ok
    · simp only [certObjectKey] at hcs hcu
      simp only [gradesObjectKey] at hgs hgup
      refine ⟨Or.inl ?_, ?_, ?_, ?_⟩ <;>
        simp [onSubmit, hpost, hpc, hcs, hcu, hgs, hgup]
    · have hok : ok = false := by
        cases ok
        · rfl
        · exact absurd hgup hgu
      subst hok
      simp only [certObjectKey] at hcs hcu
      simp only [gradesObjectKey] at hgs hgup
      refine ⟨Or.inr ?_, ?_, ?_, ?_⟩ <;>
        simp [onSubmit, gradesUploadFailMsg, hpost, hpc, hcs, hcu, hgs, hgup]

/-- C3 witness: a report upload resolving without `success`, a form run whose
first upload rejects, and a form run whose second upload resolves without
`success`, all leave the records untouched with no commit. -/
theorem upload_failure_no_commit_no_mutation_witness :
    (((handleUpload { sampleReportEnv with uploadResp := some false } sampleUser true
          (some sampleFile) sampleRecord).outcome
        = Outcome.failed
            (.transport ({ sampleReportEnv with uploadResp := some false } : ReportEnv).uploadErrMsg)
      ∨ (handleUpload { sampleReportEnv with uploadResp := some false } sampleUser true
          (some sampleFile) sampleRecord).outcome = Outcome.failed .uploadValidation)
    ∧ (handleUpload { sampleReportEnv with uploadResp := some false } sampleUser true
        (some sampleFile) sampleRecord).commitCalled = false
    ∧ (handleUpload { sampleReportEnv with uploadResp := some false } sampleUser true
        (some sampleFile) sampleRecord).resetCalled = false
    ∧ (handleUpload { sampleReportEnv with uploadResp := some false } sampleUser true
        (some sampleFile) sampleRecord).record = sampleRecord)
    ∧ (((onSubmit { sampleFormEnv with uploadResp := fun _ => none } sampleFormUser
          sampleCert sampleGrades sampleFormRecord).outcome
        = FormOutcome.failedDialog
            ({ sampleFormEnv with uploadResp := fun _ => none } : FormEnv).uploadErrMsg
      ∨ (onSubmit { sampleFormEnv with uploadResp := fun _ => none } sampleFormUser
          sampleCert sampleGrades sampleFormRecord).outcome
        = FormOutcome.failedDialog
            (certUploadFailMsg { sampleFormEnv with uploadResp := fun _ => none } sampleCert))
      ∧ (onSubmit { sampleFormEnv with uploadResp := fun _ => none } sampleFormUser
          sampleCert sampleGrades sampleFormRecord).commitCalled = false
      ∧ (onSubmit { sampleFormEnv with uploadResp := fun _ => none } sampleFormUser
          sampleCert sampleGrades sampleFormRecord).statusCalled = false
      ∧ (onSubmit { sampleFormEnv with uploadResp := fun _ => none } sampleFormUser
          sampleCert sampleGrades sampleFormRecord).record = sampleFormRecord)
    ∧ (((onSubmit
          { sampleFormEnv with
            uploadResp := fun k =>
              if k = "upload_mtym/john_doe/grades_g2.png" then some false else some true }
          sampleFormUser sampleCert sampleGrades sampleFormRecord).outcome
        = FormOutcome.failedDialog
            ({ sampleFormEnv with
              uploadResp := fun k =>
                if k = "upload_mtym/john_doe/grades_g2.png" then some false
                else some true } : FormEnv).uploadErrMsg
      ∨ (onSubmit
          { sampleFormEnv with
            uploadResp := fun k =>
              if k = "upload_mtym/john_doe/grades_g2.png" then some false else some true }
          sampleFormUser sampleCert sampleGrades sampleFormRecord).outcome
        = FormOutcome.failedDialog
            (gradesUploadFailMsg
              { sampleFormEnv with
                uploadResp := fun k =>
                  if k = "upload_mtym/john_doe/grades_g2.png" then some false
                  else some true } sampleGrades))
      ∧ (onSubmit
          { sampleFormEnv with
            uploadResp := fun k =>
              if k = "upload_mtym/john_doe/grades_g2.png" then some false else some true }
          sampleFormUser sampleCert sampleGrades sampleFormRecord).commitCalled = false
      ∧ (onSubmit
          { sampleFormEnv with
            uploadResp := fun k =>
              if k = "upload_mtym/john_doe/grades_g2.png" then some false else some true }
          sampleFormUser sampleCert sampleGrades sampleFormRecord).statusCalled = false
      ∧ (onSubmit
          { sampleFormEnv with
            uploadResp := fun k =>
              if k = "upload_mtym/john_doe/grades_g2.png" then some false else some true }
          sampleFormUser sampleCert sampleGrades sampleFormRecord).record
          = sampleFormRecord) := by
  refine ⟨?_, ?_, ?_⟩
  · exact (upload_failure_no_commit_no_mutation
      { sampleReportEnv with uploadResp := some false } sampleUser sampleFile
      sampleRecord sampleFormEnv sampleFormUser sampleCert sampleGrades
      sampleFormRecord).1 "https://bucket/presigned" rfl (by decide)
  · exact (upload_failure_no_commit_no_mutation sampleReportEnv sampleUser sampleFile
      sampleRecord { sampleFormEnv with uploadResp := fun _ => none } sampleFormUser
      sampleCert sampleGrades sampleFormRecord).2.1 ⟨200, 42, none⟩
      "https://bucket/presigned" rfl rfl rfl (by decide)
  · exact (upload_failure_no_commit_no_mutation sampleReportEnv sampleUser sampleFile
      sampleRecord
      { sampleFormEnv with
        uploadResp := fun k =>
          if k = "upload_mtym/john_doe/grades_g2.png" then some false else some true }
      sampleFormUser sampleCert sampleGrades sampleFormRecord).2.2 ⟨200, 42, none⟩
      "https://bucket/presigned" "https://bucket/presigned" rfl rfl rfl
      (by decide) rfl (by decide)

/-- C7: in every successful authorize → upload → commit sequence, the object
key recorded in the committed record equals the object key of the original
request exactly — on the report page the committed `reportUrl` is the very key
sent to `getSignedURL`, and on the form the committed certificate and grades
URLs are the two keys sent to `getSignedURL`, in order, with no normalization
or mutation. -/
theorem objectKey_committed_unchanged (env : ReportEnv) (user : UserData)
    (f : FileMeta) (record : AppRecord) (url : String)
    (hs : env.presignResp = some url) (hu : env.uploadResp = some true)
    (hc : env.putResp = some 200)
    (fenv : FormEnv) (fuser : FormUser) (cert grades : FileMeta)
    (frecord : FormRecord) (post : PostResp) (u v : String)
    (hpost : fenv.postResp = some post) (hpc : post.statusCode = 200)
    (hcs : fenv.presignResp (certObjectKey fenv cert) = some u)
    (hcu : fenv.uploadResp (certObjectKey fenv cert) = some true)
    (hgs : fenv.presignResp (gradesObjectKey fenv grades) = some v)
    (hgu : fenv.uploadResp (gradesObjectKey fenv grades) = some true)
    (hput : fenv.putResp = some 200) :
    (handleUpload env user true (some f) record).presignedKey
        = some (reportObjectKey env f)
    ∧ (handleUpload env user true (some f) record).record.reportUrl
        = some (reportObjectKey env f)
    ∧ (onSubmit fenv fuser cert grades frecord).presignedKeys
        = [certObjectKey fenv cert, gradesObjectKey fenv grades]
    ∧ (onSubmit fenv fuser cert grades frecord).record.schoolCertificateUrl
        = some (certObjectKey fenv cert)
    ∧ (onSubmit fenv fuser cert grades frecord).record.gradesUrl
        = some (gradesObjectKey fenv grades) := by
  simp only [certObjectKey] at hcs hcu
  simp only [gradesObjectKey] at hgs hgu
  have hreport :
      (handleUpload env user true (some f) record).presignedKey
          = some (reportObjectKey env f)
      ∧ (handleUpload env user true (some f) record).record.reportUrl
          = some (reportObjectKey env f) := by
    rcases hres : env.resetResp with _ | rs
    · constructor <;> simp [handleUpload, reportObjectKey, hs, hu, hc, hres]
    · by_cases h200 : rs = 200 <;>
        exact ⟨by simp [handleUpload, reportObjectKey, hs, hu, hc, hres, h200],
               by simp [handleUpload, reportObjectKey, hs, hu, hc, hres, h200]⟩
  have hform :
      (onSubmit fenv fuser cert grades frecord).presignedKeys
          = [certObjectKey fenv cert, gradesObjectKey fenv grades]
      ∧ (onSubmit fenv fuser cert grades frecord).record.schoolCertificateUrl
          = some (certObjectKey fenv cert)
      ∧ (onSubmit fenv fuser cert grades frecord).record.gradesUrl
          = some (gradesObjectKey fenv grades) := by
    rcases hst : fenv.statusResp with _ | sc
    · refine ⟨?_, ?_, ?_⟩ <;>
        simp [onSubmit, certObjectKey, gradesObjectKey, hpost, hpc, hcs, hcu, hgs,
          hgu, hput, hst]
    · by_cases hsc : sc = 200 <;>
      · refine ⟨?_, ?_, ?_⟩ <;>
          simp [onSubmit, certObjectKey, gradesObjectKey, hpost, hpc, hcs, hcu, hgs,
            hgu, hput, hst, hsc]
  exact ⟨hreport.1, hreport.2, hform.1, hform.2.1, hform.2.2⟩

/-- C7 witness: with every call succeeding, the committed keys are exactly the
requested ones. -/
theorem objectKey_committed_unchanged_witness :
    (handleUpload sampleReportEnv sampleUser true (some sampleFile)
        sampleRecord).presignedKey = some (reportObjectKey sampleReportEnv sampleFile)
    ∧ (handleUpload sampleReportEnv sampleUser true (some sampleFile)
        sampleRecord).record.reportUrl = some (reportObjectKey sampleReportEnv sampleFile)
    ∧ (onSubmit sampleFormEnv sampleFormUser sampleCert sampleGrades
        sampleFormRecord).presignedKeys
        = [certObjectKey sampleFormEnv sampleCert, gradesObjectKey sampleFormEnv sampleGrades]
    ∧ (onSubmit sampleFormEnv sampleFormUser sampleCert sampleGrades
        sampleFormRecord).record.schoolCertificateUrl
        = some (certObjectKey sampleFormEnv sampleCert)
    ∧ (onSubmit sampleFormEnv sampleFormUser sampleCert sampleGrades
        sampleFormRecord).record.gradesUrl
        = some (gradesObjectKey sampleFormEnv sampleGrades) :=
  objectKey_committed_unchanged sampleReportEnv sampleUser sampleFile sampleRecord
    "https://bucket/presigned" rfl rfl rfl sampleFormEnv sampleFormUser sampleCert
    sampleGrades sampleFormRecord ⟨200, 42, none⟩ "https://bucket/presigned"
    "https://bucket/presigned" rfl rfl rfl rfl rfl rfl rfl

/-- C8: if the record commit succeeds but the status-reset call fails (returns
non-200, or throws), the report-page workflow still reports overall success
(the `done` toast) and merely surfaces a warning. -/
theorem statusReset_failure_nonfatal (env : ReportEnv) (user : UserData)
    (f : FileMeta) (record : AppRecord) (url : String)
    (hs : env.presignResp = some url) (hu : env.uploadResp = some true)
    (hc : env.putResp = some 200)
    (hr : ∀ rs, env.resetResp = some rs → rs ≠ 200) :
    (handleUpload env user true (some f) record).outcome
        = Outcome.done (user.reportStatus == ReportStatus.VALID)
    ∧ (handleUpload env user true (some f) record).warning = true := by
  rcases hres : env.resetResp with _ | rs
  · constructor <;> simp [handleUpload, hs, hu, hc, hres]
  · have hne := hr rs hres
    constructor <;> simp [handleUpload, hs, hu, hc, hres, hne]

/-- C8 witness: a 500 status-reset response after a successful commit still
ends in `done`, with the warning flag set. -/
theorem statusReset_failure_nonfatal_witness :
    (handleUpload { sampleReportEnv with resetResp := some 500 } sampleUser true
        (some sampleFile) sampleRecord).outcome
      = Outcome.done (sampleUser.reportStatus == ReportStatus.VALID)
    ∧ (handleUpload { sampleReportEnv with resetResp := some 500 } sampleUser true
        (some sampleFile) sampleRecord).warning = true :=
  statusReset_failure_nonfatal { sampleReportEnv with resetResp := some 500 }
    sampleUser sampleFile sampleRecord "https://bucket/presigned" rfl rfl rfl
    (fun rs h => by cases h; decide)

end Fma
